import Mathlib

set_option linter.unusedSectionVars false

/-!
Verification of the optical-flow velocity estimation core
(`OpticalFlowTracking` in `src/optical_flow_velocity.cpp` /
`include/optical_flow_velocity.hpp`) together with the relevant parts of
the Simulink S-function adapter (`mdlOutputs`).

Modelling conventions:
* A `cv::Mat` image is modelled by its pixel dimensions plus an abstract
  content tag.  An empty matrix (`_last_im.empty()`) is `Option.none`.
  Grayscale conversion (`cvtColor` / `clone`) preserves dimensions and
  content, so it is the identity in the model.
* Pixel coordinates (`cv::Point2f`) are rationals; velocities, time steps
  and camera parameters live in a linearly ordered field `K` (the C++
  uses `float`, idealised as exact arithmetic); the transcendental
  functions `std::tan` / `std::atan` are passed as parameters so that the
  definitions stay executable, and every theorem instantiates `K := ℝ`
  with `Real.tan` / `Real.arctan`.
* The two OpenCV library calls are oracles: `gftRaw` stands for the corner
  detector behind `goodFeaturesToTrack` (the cap of 1000 corners passed as
  `maxCorners` is part of the library contract and is modelled by
  truncation), and `lkOne` stands for the per-point pyramidal
  Lucas-Kanade tracker behind `calcOpticalFlowPyrLK`, which returns a new
  location and a status flag for each input point.
-/

/-- A `cv::Point2f` feature location. -/
structure Point2f where
  x : ℚ
  y : ℚ
deriving DecidableEq, Repr

/-- A non-empty `cv::Mat` image: pixel dimensions plus abstract content. -/
structure Image where
  rows : Nat
  cols : Nat
  data : Nat
deriving DecidableEq, Repr

/-- Oracle for the OpenCV calls used by the tracker. `gftRaw` is the corner
detector before the `maxCorners` truncation; `lkOne` tracks one point from
the previous to the current image. -/
structure CVOracle where
  gftRaw : Image → List Point2f
  lkOne : Image → Image → Point2f → Point2f × Bool

/-- The state of an `OpticalFlowTracking` object (the private fields of the
C++ class; `_criteria` is a compile-time constant folded into the `lkOne`
oracle). -/
structure OpticalFlowTracking (K : Type) where
  _method : Int
  _delta_t : K
  _focal_length : K
  _cmos_width : K
  _cmos_height : K
  _fov_h : K
  _fov_v : K
  _img_width : Nat
  _img_height : Nat
  _debug_count : Nat
  _last_im : Option Image
  _features : List Point2f

/-- The `OpticalFlowTracking` constructor: stores the parameters, zeroes the
image dimensions and debug counter, leaves the reference frame empty, and
derives the two fields of view as FOV = 2 * atan(sensor / (2 * focal)),
where `atanK` models `std::atan`. -/
def OpticalFlowTracking.construct {K : Type} [LinearOrderedField K] (atanK : K → K)
    (method : Int) (delta_t camera_focal_length cmos_width cmos_height : K) :
    OpticalFlowTracking K :=
  { _method := method
    _delta_t := delta_t
    _focal_length := camera_focal_length
    _cmos_width := cmos_width
    _cmos_height := cmos_height
    _fov_h := 2 * atanK (cmos_width / (2 * camera_focal_length))
    _fov_v := 2 * atanK (cmos_height / (2 * camera_focal_length))
    _img_width := 0
    _img_height := 0
    _debug_count := 0
    _last_im := none
    _features := [] }

/-- `OpticalFlowTracking::_set_delta_t_`: update the stored time step. -/
def OpticalFlowTracking._set_delta_t_ {K : Type} (st : OpticalFlowTracking K)
    (delta_t_ : K) : OpticalFlowTracking K :=
  { st with _delta_t := delta_t_ }

/-- `OpticalFlowTracking::_has_features`: `!_features.empty()`. -/
def OpticalFlowTracking._has_features {K : Type} (st : OpticalFlowTracking K) : Bool :=
  !st._features.isEmpty

/-- `cv::goodFeaturesToTrack` with `maxCorners = 1000`: the library returns
at most `maxCorners` corners, modelled by truncating the oracle's list. -/
def goodFeaturesCap (raw : Image → List Point2f) (img : Image) : List Point2f :=
  (raw img).take 1000

/-- Body of `OpticalFlowTracking::extractFeatures`, parameterised by the
corner detector: clear `_features` and re-detect; if no features were
found, return early; otherwise store the image and its dimensions as the
reference for the next tracking step. -/
def extractFeaturesCore {K : Type} (raw : Image → List Point2f)
    (st : OpticalFlowTracking K) (img : Image) : OpticalFlowTracking K :=
  let feats := goodFeaturesCap raw img
  if feats.isEmpty then
    { st with _features := feats }
  else
    { st with _features := feats, _last_im := some img,
              _img_width := img.cols, _img_height := img.rows }

/-- `OpticalFlowTracking::extractFeatures`. -/
def OpticalFlowTracking.extractFeatures {K : Type} (o : CVOracle)
    (st : OpticalFlowTracking K) (img : Image) : OpticalFlowTracking K :=
  extractFeaturesCore o.gftRaw st img

/-- `cv::calcOpticalFlowPyrLK`: one (new location, status) result per input
feature. -/
def lkAll (o : CVOracle) (prev cur : Image) (pts : List Point2f) :
    List (Point2f × Bool) :=
  pts.map (o.lkOne prev cur)

/-- The status-filtered loop of `calculateRealVel`: the (old location, new
location) pairs of the features whose tracking status is nonzero, in input
order. -/
def survivorPairs (feats : List Point2f) (results : List (Point2f × Bool)) :
    List (Point2f × Point2f) :=
  ((feats.zip results).filter (fun pr => pr.2.2)).map (fun pr => (pr.1, pr.2.1))

/-- The pixel velocities of the surviving features: with displacement
(dx, dy) = new - old, the forward component is dy / delta_t and the lateral
component is -dx / delta_t (the UAV axis remap of lines 113-119). -/
def pixelVels {K : Type} [LinearOrderedField K] (delta_t : K)
    (pairs : List (Point2f × Point2f)) : List (K × K) :=
  pairs.map (fun pr =>
    (((pr.2.y : ℚ) - (pr.1.y : ℚ) : ℚ) / delta_t,
     (-((pr.2.x : ℚ) - (pr.1.x : ℚ) : ℚ) : ℚ) / delta_t))

/-- The optical-to-real conversion of lines 133-139: angular velocity =
pixel velocity * fov / dimension, real velocity = height * tan(angular
velocity * delta_t) / delta_t, where `tanK` models `std::tan`. -/
def realVelComponent {K : Type} [LinearOrderedField K] (tanK : K → K)
    (height fov : K) (dim : Nat) (delta_t pixvel : K) : K :=
  height * tanK (pixvel * fov / (dim : K) * delta_t) / delta_t

/-- The tuple returned by `calculateRealVel`. -/
structure RealVelResult (K : Type) where
  v_est_x : List K
  v_est_y : List K
  new_features : List Point2f
  old_features : List Point2f
  success : Bool

/-- `OpticalFlowTracking::calculateRealVel`.  On the first call
(`_last_im.empty()`) it seeds via `extractFeatures` and returns empty
outputs with success; otherwise it tracks `_features` into the new frame,
computes pixel velocities for the surviving features, re-seeds `_features`
and `_last_im` from the current frame (without touching `_img_width` /
`_img_height`), and converts the pixel velocities to real velocities using
the stored FOV, stored image dimensions, height and `_delta_t`. -/
def OpticalFlowTracking.calculateRealVel {K : Type} [LinearOrderedField K]
    (tanK : K → K) (o : CVOracle) (st : OpticalFlowTracking K) (img : Image)
    (height : K) : RealVelResult K × OpticalFlowTracking K :=
  match st._last_im with
  | none =>
      (⟨[], [], [], [], true⟩, st.extractFeatures o img)
  | some prev =>
      let results := lkAll o prev img st._features
      let pairs := survivorPairs st._features results
      let pv := pixelVels st._delta_t pairs
      let st2 : OpticalFlowTracking K :=
        { st with _debug_count := st._debug_count + 1,
                  _features := goodFeaturesCap o.gftRaw img,
                  _last_im := some img }
      (⟨pv.map (fun v => realVelComponent tanK height st._fov_v st._img_height st._delta_t v.1),
        pv.map (fun v => realVelComponent tanK height st._fov_h st._img_width st._delta_t v.2),
        results.map Prod.fst,
        pairs.map Prod.fst,
        true⟩, st2)

/-- The tracker states reachable through the public interface: construction,
`_set_delta_t_`, `extractFeatures` and `calculateRealVel`. -/
inductive Reachable {K : Type} [LinearOrderedField K] (tanK atanK : K → K)
    (o : CVOracle) : OpticalFlowTracking K → Prop where
  | construct (method : Int) (delta_t f w h : K) :
      Reachable tanK atanK o (OpticalFlowTracking.construct atanK method delta_t f w h)
  | set_delta_t (st : OpticalFlowTracking K) (d : K) :
      Reachable tanK atanK o st → Reachable tanK atanK o (st._set_delta_t_ d)
  | extract (st : OpticalFlowTracking K) (img : Image) :
      Reachable tanK atanK o st → Reachable tanK atanK o (st.extractFeatures o img)
  | compute (st : OpticalFlowTracking K) (img : Image) (height : K) :
      Reachable tanK atanK o st →
      Reachable tanK atanK o ((st.calculateRealVel tanK o img height).2)

/-- Oracle for the OpenCV calls when the tracking call may raise a
`cv::Exception`: `lkAllE` models the whole `calcOpticalFlowPyrLK` call,
which either returns one (new location, status) result per input feature
or throws. -/
structure CVOracleE where
  gftRaw : Image → List Point2f
  lkAllE : Image → Image → List Point2f → Except String (List (Point2f × Bool))

/-- `OpticalFlowTracking::calculateRealVel` in the presence of a throwing
`calcOpticalFlowPyrLK`: the function itself installs no handler, so the
exception propagates to the caller; the state mutations performed before
the throwing call (the `_debug_count` increment) persist, which the error
value records alongside the message. -/
def OpticalFlowTracking.calculateRealVelE {K : Type} [LinearOrderedField K]
    (tanK : K → K) (o : CVOracleE) (st : OpticalFlowTracking K) (img : Image)
    (height : K) :
    Except (String × OpticalFlowTracking K) (RealVelResult K × OpticalFlowTracking K) :=
  match st._last_im with
  | none =>
      .ok (⟨[], [], [], [], true⟩, extractFeaturesCore o.gftRaw st img)
  | some prev =>
      let st1 : OpticalFlowTracking K := { st with _debug_count := st._debug_count + 1 }
      match o.lkAllE prev img st._features with
      | .error e => .error (e, st1)
      | .ok results =>
          let pairs := survivorPairs st._features results
          let pv := pixelVels st._delta_t pairs
          let st2 : OpticalFlowTracking K :=
            { st1 with _features := goodFeaturesCap o.gftRaw img,
                       _last_im := some img }
          .ok (⟨pv.map (fun v => realVelComponent tanK height st._fov_v st._img_height st._delta_t v.1),
                pv.map (fun v => realVelComponent tanK height st._fov_h st._img_width st._delta_t v.2),
                results.map Prod.fst,
                pairs.map Prod.fst,
                true⟩, st2)

/-- The externally visible outcome of one `mdlOutputs` step: the 1000
columns of output port 0 (velocity pairs, zero padded), the valid-sample
count of port 2, the `ssWarning` message if any, and the `ssSetErrorStatus`
value if any (the computation-time output is not modelled). -/
structure SimStepOut (K : Type) where
  out_cols : List (K × K)
  num_features : Nat
  warning : Option String
  error_status : Option String

/-- The velocity-relevant part of `mdlOutputs`: update the time step from
input port 1, call `calculateRealVel` with height 1.0 inside a
try/catch that converts a `cv::Exception` into an `ssWarning` and empty
velocity vectors, clamp the valid-sample count to the port width 1000,
write the velocity pairs and zero out the unused columns.  No path sets a
fatal error status. -/
def mdlOutputsModel {K : Type} [LinearOrderedField K] (tanK : K → K)
    (o : CVOracleE) (st : OpticalFlowTracking K) (img : Image) (delta_t_in : K) :
    SimStepOut K × OpticalFlowTracking K :=
  let tr := st._set_delta_t_ delta_t_in
  match tr.calculateRealVelE tanK o img 1 with
  | .ok (res, tr2) =>
      let valid := min res.v_est_x.length 1000
      ({ out_cols := (res.v_est_x.zip res.v_est_y).take 1000 ++
            List.replicate (1000 - valid) (0, 0),
         num_features := valid,
         warning := none,
         error_status := none }, tr2)
  | .error (e, tr2) =>
      ({ out_cols := List.replicate 1000 (0, 0),
         num_features := 0,
         warning := some e,
         error_status := none }, tr2)

/-- A 480x640 test frame (the dimensions of the concrete scenario in the
specification). -/
def imgA : Image := ⟨480, 640, 0⟩

/-- A second 480x640 test frame with different content. -/
def imgB : Image := ⟨480, 640, 1⟩

/-- A corner detector that finds one corner in every non-degenerate image,
and a tracker that moves every point 8 pixels down and reports success. -/
def sampleOracle : CVOracle where
  gftRaw := fun img => if 0 < img.rows ∧ 0 < img.cols then [⟨100, 100⟩] else []
  lkOne := fun _ _ p => (⟨p.x, p.y + 8⟩, true)

/-- A corner detector that succeeds on `imgA` and fails (finds nothing) on
every other frame, with an always-successful point tracker. -/
def cexOracle : CVOracle where
  gftRaw := fun img => if img.data = 0 then [⟨1, 1⟩] else []
  lkOne := fun _ _ p => (⟨p.x + 2, p.y + 3⟩, true)

/-- A corner detector that finds two corners in `imgA` and one elsewhere,
with a point tracker that succeeds on the corner at x = 1 and loses the
corner at x = 9. -/
def cex6Oracle : CVOracle where
  gftRaw := fun img => if img.data = 0 then [⟨1, 1⟩, ⟨9, 9⟩] else [⟨1, 1⟩]
  lkOne := fun _ _ p => (⟨p.x + 3, p.y⟩, decide (p.x < 5))

/-- An OpenCV oracle whose `calcOpticalFlowPyrLK` always throws. -/
def cexOracleE : CVOracleE where
  gftRaw := fun _ => []
  lkAllE := fun _ _ _ => .error "OpenCV assertion failed"

section Lemmas

variable {K : Type} [LinearOrderedField K]

theorem calculateRealVel_unseeded (tanK : K → K) (o : CVOracle)
    (st : OpticalFlowTracking K) (img : Image) (height : K)
    (hl : st._last_im = none) :
    st.calculateRealVel tanK o img height =
      (⟨[], [], [], [], true⟩, st.extractFeatures o img) := by
  simp [OpticalFlowTracking.calculateRealVel, hl]

theorem calculateRealVel_tracking (tanK : K → K) (o : CVOracle)
    (st : OpticalFlowTracking K) (img prev : Image) (height : K)
    (hl : st._last_im = some prev) :
    st.calculateRealVel tanK o img height =
      (⟨(pixelVels st._delta_t (survivorPairs st._features (lkAll o prev img st._features))).map
          (fun v => realVelComponent tanK height st._fov_v st._img_height st._delta_t v.1),
        (pixelVels st._delta_t (survivorPairs st._features (lkAll o prev img st._features))).map
          (fun v => realVelComponent tanK height st._fov_h st._img_width st._delta_t v.2),
        (lkAll o prev img st._features).map Prod.fst,
        (survivorPairs st._features (lkAll o prev img st._features)).map Prod.fst,
        true⟩,
       { st with _debug_count := st._debug_count + 1,
                 _features := goodFeaturesCap o.gftRaw img,
                 _last_im := some img }) := by
  simp [OpticalFlowTracking.calculateRealVel, hl]

theorem extractFeaturesCore_of_empty (raw : Image → List Point2f)
    (st : OpticalFlowTracking K) (img : Image)
    (h : goodFeaturesCap raw img = []) :
    extractFeaturesCore raw st img = { st with _features := [] } := by
  simp [extractFeaturesCore, h]

theorem extractFeaturesCore_of_nonempty (raw : Image → List Point2f)
    (st : OpticalFlowTracking K) (img : Image)
    (h : goodFeaturesCap raw img ≠ []) :
    extractFeaturesCore raw st img =
      { st with _features := goodFeaturesCap raw img, _last_im := some img,
                _img_width := img.cols, _img_height := img.rows } := by
  simp [extractFeaturesCore, h]

theorem goodFeaturesCap_length_le (raw : Image → List Point2f) (img : Image) :
    (goodFeaturesCap raw img).length ≤ 1000 := by
  rw [goodFeaturesCap, List.length_take]
  exact min_le_left _ _

theorem lkAll_length (o : CVOracle) (prev cur : Image) (pts : List Point2f) :
    (lkAll o prev cur pts).length = pts.length := by
  simp [lkAll]

theorem survivorPairs_length_le (feats : List Point2f)
    (results : List (Point2f × Bool)) :
    (survivorPairs feats results).length ≤ feats.length := by
  rw [survivorPairs, List.length_map]
  exact le_trans (List.length_filter_le _ _)
    (by rw [List.length_zip]; exact min_le_left _ _)

theorem pixelVels_length (delta_t : K) (pairs : List (Point2f × Point2f)) :
    (pixelVels delta_t pairs).length = pairs.length := by
  simp [pixelVels]

theorem extractFeatures_basic (o : CVOracle) (st : OpticalFlowTracking K)
    (img : Image) :
    (st.extractFeatures o img)._features.length ≤ 1000 ∧
      ((st.extractFeatures o img)._features ≠ [] →
        (st.extractFeatures o img)._last_im.isSome = true) := by
  rw [OpticalFlowTracking.extractFeatures]
  by_cases h : goodFeaturesCap o.gftRaw img = []
  · rw [extractFeaturesCore_of_empty _ _ _ h]
    exact ⟨by simp, by simp⟩
  · rw [extractFeaturesCore_of_nonempty _ _ _ h]
    exact ⟨goodFeaturesCap_length_le _ _, by simp⟩

theorem reachable_basic {tanK atanK : K → K} {o : CVOracle}
    {st : OpticalFlowTracking K} (hr : Reachable tanK atanK o st) :
    st._features.length ≤ 1000 ∧
      (st._features ≠ [] → st._last_im.isSome = true) := by
  induction hr with
  | construct method delta_t f w h => simp [OpticalFlowTracking.construct]
  | set_delta_t st d _ ih => simpa [OpticalFlowTracking._set_delta_t_] using ih
  | extract st img _ _ => exact extractFeatures_basic o st img
  | compute st img height _ _ =>
      cases hli : st._last_im with
      | none =>
          rw [calculateRealVel_unseeded _ _ _ _ _ hli]
          exact extractFeatures_basic o st img
      | some prev =>
          rw [calculateRealVel_tracking _ _ _ _ prev _ hli]
          exact ⟨goodFeaturesCap_length_le _ _, by simp⟩

theorem extractFeatures_dims {o : CVOracle}
    (hgft : ∀ img : Image, o.gftRaw img ≠ [] → 0 < img.rows ∧ 0 < img.cols)
    (st : OpticalFlowTracking K) (img : Image)
    (ih : st._last_im.isSome = true → 0 < st._img_width ∧ 0 < st._img_height) :
    (st.extractFeatures o img)._last_im.isSome = true →
      0 < (st.extractFeatures o img)._img_width ∧
        0 < (st.extractFeatures o img)._img_height := by
  rw [OpticalFlowTracking.extractFeatures]
  by_cases h : goodFeaturesCap o.gftRaw img = []
  · rw [extractFeaturesCore_of_empty _ _ _ h]
    exact ih
  · rw [extractFeaturesCore_of_nonempty _ _ _ h]
    intro _
    have hne : o.gftRaw img ≠ [] := by
      intro hnil
      exact h (by simp [goodFeaturesCap, hnil])
    rcases hgft img hne with ⟨hrows, hcols⟩
    exact ⟨hcols, hrows⟩

theorem reachable_dims_pos {tanK atanK : K → K} {o : CVOracle}
    (hgft : ∀ img : Image, o.gftRaw img ≠ [] → 0 < img.rows ∧ 0 < img.cols)
    {st : OpticalFlowTracking K} (hr : Reachable tanK atanK o st) :
    st._last_im.isSome = true → 0 < st._img_width ∧ 0 < st._img_height := by
  induction hr with
  | construct method delta_t f w h => intro hs; simp [OpticalFlowTracking.construct] at hs
  | set_delta_t st d _ ih => simpa [OpticalFlowTracking._set_delta_t_] using ih
  | extract st img _ ih => exact extractFeatures_dims hgft st img ih
  | compute st img height _ ih =>
      cases hli : st._last_im with
      | none =>
          rw [calculateRealVel_unseeded _ _ _ _ _ hli]
          exact extractFeatures_dims hgft st img ih
      | some prev =>
          rw [calculateRealVel_tracking _ _ _ _ prev _ hli]
          intro _
          exact ih (by rw [hli]; rfl)

end Lemmas

/-- C1: for every feature that survives tracking in a `calculateRealVel`
call in the TRACKING state, the returned real-world velocity components
equal height * tan(angular_velocity * frame_interval) / frame_interval,
where the angular velocity is the pixel velocity times the vertical FOV
over the stored frame height for the forward/x component, and the pixel
velocity times the horizontal FOV over the stored frame width for the
lateral/y component. -/
theorem claim1_real_velocity_formula (o : CVOracle) (st : OpticalFlowTracking ℝ)
    (img prev : Image) (height : ℝ) (hl : st._last_im = some prev) :
    (st.calculateRealVel Real.tan o img height).1.v_est_x =
      (pixelVels st._delta_t (survivorPairs st._features (lkAll o prev img st._features))).map
        (fun pv => height * Real.tan (pv.1 * st._fov_v / (st._img_height : ℝ) * st._delta_t) /
          st._delta_t) ∧
    (st.calculateRealVel Real.tan o img height).1.v_est_y =
      (pixelVels st._delta_t (survivorPairs st._features (lkAll o prev img st._features))).map
        (fun pv => height * Real.tan (pv.2 * st._fov_h / (st._img_width : ℝ) * st._delta_t) /
          st._delta_t) := by
  rw [calculateRealVel_tracking _ _ _ _ prev _ hl]
  exact ⟨rfl, rfl⟩

/-- Witness for C1 at a concrete TRACKING state with one feature. -/
theorem claim1_witness :
    ((⟨100, 1, 1, 1, 1, 1, 1, 640, 480, 0, some imgA, [⟨1, 1⟩]⟩ :
        OpticalFlowTracking ℝ)._last_im = some imgA) ∧
    (((⟨100, 1, 1, 1, 1, 1, 1, 640, 480, 0, some imgA, [⟨1, 1⟩]⟩ :
        OpticalFlowTracking ℝ).calculateRealVel Real.tan sampleOracle imgB 2).1.v_est_x =
      (pixelVels (1 : ℝ) (survivorPairs [⟨1, 1⟩] (lkAll sampleOracle imgA imgB [⟨1, 1⟩]))).map
        (fun pv => 2 * Real.tan (pv.1 * 1 / ((480 : ℕ) : ℝ) * 1) / 1) ∧
     ((⟨100, 1, 1, 1, 1, 1, 1, 640, 480, 0, some imgA, [⟨1, 1⟩]⟩ :
        OpticalFlowTracking ℝ).calculateRealVel Real.tan sampleOracle imgB 2).1.v_est_y =
      (pixelVels (1 : ℝ) (survivorPairs [⟨1, 1⟩] (lkAll sampleOracle imgA imgB [⟨1, 1⟩]))).map
        (fun pv => 2 * Real.tan (pv.2 * 1 / ((640 : ℕ) : ℝ) * 1) / 1)) :=
  ⟨rfl, claim1_real_velocity_formula sampleOracle _ imgB imgA 2 rfl⟩

/-- C3: for a freshly constructed tracker (no previous frame), the first
`calculateRealVel` call performs feature extraction on the image and
returns immediately with empty outputs and success = true, and afterwards
`_has_features` is true exactly when the image contained at least one
qualifying feature. -/
theorem claim3_first_call (o : CVOracle) (st : OpticalFlowTracking ℝ) (img : Image)
    (height : ℝ) (hl : st._last_im = none) :
    st.calculateRealVel Real.tan o img height =
      (⟨[], [], [], [], true⟩, st.extractFeatures o img) ∧
    ((st.extractFeatures o img)._has_features = true ↔
      goodFeaturesCap o.gftRaw img ≠ []) := by
  refine ⟨calculateRealVel_unseeded _ _ _ _ _ hl, ?_⟩
  rw [OpticalFlowTracking.extractFeatures]
  by_cases h : goodFeaturesCap o.gftRaw img = []
  · rw [extractFeaturesCore_of_empty _ _ _ h]
    simp [OpticalFlowTracking._has_features, h]
  · rw [extractFeaturesCore_of_nonempty _ _ _ h]
    simp [OpticalFlowTracking._has_features, h]

/-- Witness for C3 at a freshly constructed tracker state. -/
theorem claim3_witness :
    ((⟨100, 1, 1, 1, 1, 1, 1, 0, 0, 0, none, []⟩ :
        OpticalFlowTracking ℝ)._last_im = none) ∧
    ((⟨100, 1, 1, 1, 1, 1, 1, 0, 0, 0, none, []⟩ :
        OpticalFlowTracking ℝ).calculateRealVel Real.tan sampleOracle imgA 2 =
      (⟨[], [], [], [], true⟩,
        (⟨100, 1, 1, 1, 1, 1, 1, 0, 0, 0, none, []⟩ :
          OpticalFlowTracking ℝ).extractFeatures sampleOracle imgA) ∧
     (((⟨100, 1, 1, 1, 1, 1, 1, 0, 0, 0, none, []⟩ :
          OpticalFlowTracking ℝ).extractFeatures sampleOracle imgA)._has_features = true ↔
       goodFeaturesCap sampleOracle.gftRaw imgA ≠ [])) :=
  ⟨rfl, claim3_first_call sampleOracle _ imgA 2 rfl⟩

/-- C2: for every feature successfully tracked by `calculateRealVel` with
pixel displacement (dx, dy) = new location minus old location and frame
interval T, the pixel velocity computed before the FOV conversion is
vx = dy/T on the forward axis and vy = -dx/T on the lateral axis. -/
theorem claim2_pixel_velocity_sign (o : CVOracle) (st : OpticalFlowTracking ℝ)
    (img prev : Image) (height : ℝ) (i : Nat) (hl : st._last_im = some prev)
    (hi : i < st._features.length)
    (hstat : (o.lkOne prev img (st._features.get ⟨i, hi⟩)).2 = true) :
    (st.calculateRealVel Real.tan o img height).1.old_features =
      (survivorPairs st._features (lkAll o prev img st._features)).map Prod.fst ∧
    ∃ j : Fin (pixelVels st._delta_t
        (survivorPairs st._features (lkAll o prev img st._features))).length,
      (pixelVels st._delta_t
        (survivorPairs st._features (lkAll o prev img st._features))).get j =
        ((((o.lkOne prev img (st._features.get ⟨i, hi⟩)).1.y -
            (st._features.get ⟨i, hi⟩).y : ℚ) : ℝ) / st._delta_t,
         ((-((o.lkOne prev img (st._features.get ⟨i, hi⟩)).1.x -
            (st._features.get ⟨i, hi⟩).x) : ℚ) : ℝ) / st._delta_t) := by
  refine ⟨by rw [calculateRealVel_tracking _ _ _ _ prev _ hl], ?_⟩
  have hmem : st._features.get ⟨i, hi⟩ ∈ st._features := List.get_mem _ _ _
  have hzm : st._features.zip (st._features.map (o.lkOne prev img)) =
      st._features.map (fun p => (p, o.lkOne prev img p)) := by
    have h := List.zip_map' id (o.lkOne prev img) st._features
    simpa using h
  have hmem2 : (st._features.get ⟨i, hi⟩,
      o.lkOne prev img (st._features.get ⟨i, hi⟩)) ∈
      (st._features.zip (lkAll o prev img st._features)).filter (fun pr => pr.2.2) := by
    rw [List.mem_filter]
    refine ⟨?_, by simpa using hstat⟩
    rw [lkAll, hzm]
    exact List.mem_map_of_mem _ hmem
  have hmem3 : (st._features.get ⟨i, hi⟩,
      (o.lkOne prev img (st._features.get ⟨i, hi⟩)).1) ∈
      survivorPairs st._features (lkAll o prev img st._features) :=
    List.mem_map_of_mem _ hmem2
  have hmem4 : ((((o.lkOne prev img (st._features.get ⟨i, hi⟩)).1.y -
        (st._features.get ⟨i, hi⟩).y : ℚ) : ℝ) / st._delta_t,
       ((-((o.lkOne prev img (st._features.get ⟨i, hi⟩)).1.x -
        (st._features.get ⟨i, hi⟩).x) : ℚ) : ℝ) / st._delta_t) ∈
      pixelVels st._delta_t
        (survivorPairs st._features (lkAll o prev img st._features)) :=
    List.mem_map_of_mem _ hmem3
  exact List.mem_iff_get.mp hmem4

/-- Witness for C2 at a single successfully tracked feature. -/
theorem claim2_witness :
    ((⟨100, 1, 1, 1, 1, 1, 1, 640, 480, 0, some imgA, [⟨1, 1⟩]⟩ :
        OpticalFlowTracking ℝ)._last_im = some imgA) ∧
    (0 : ℕ) < ([⟨1, 1⟩] : List Point2f).length ∧
    (sampleOracle.lkOne imgA imgB ⟨1, 1⟩).2 = true ∧
    (((⟨100, 1, 1, 1, 1, 1, 1, 640, 480, 0, some imgA, [⟨1, 1⟩]⟩ :
        OpticalFlowTracking ℝ).calculateRealVel Real.tan sampleOracle imgB 2).1.old_features =
      (survivorPairs [⟨1, 1⟩] (lkAll sampleOracle imgA imgB [⟨1, 1⟩])).map Prod.fst ∧
     ∃ j : Fin (pixelVels (1 : ℝ)
        (survivorPairs [⟨1, 1⟩] (lkAll sampleOracle imgA imgB [⟨1, 1⟩]))).length,
      (pixelVels (1 : ℝ)
        (survivorPairs [⟨1, 1⟩] (lkAll sampleOracle imgA imgB [⟨1, 1⟩]))).get j =
        ((((sampleOracle.lkOne imgA imgB ⟨1, 1⟩).1.y - (⟨1, 1⟩ : Point2f).y : ℚ) : ℝ) / 1,
         ((-((sampleOracle.lkOne imgA imgB ⟨1, 1⟩).1.x - (⟨1, 1⟩ : Point2f).x) : ℚ) : ℝ) / 1)) :=
  ⟨rfl, by decide, rfl,
    claim2_pixel_velocity_sign sampleOracle
      (⟨100, 1, 1, 1, 1, 1, 1, 640, 480, 0, some imgA, [⟨1, 1⟩]⟩ :
        OpticalFlowTracking ℝ) imgB imgA 2 0 rfl (by decide) rfl⟩

/-- C5 fails on the code: a reachable state (after a tracking step whose
re-seed detection came back empty) has an empty feature set together with a
non-empty stored reference frame. -/
theorem claim5_counterexample :
    Reachable Real.tan Real.arctan cexOracle
      ((((OpticalFlowTracking.construct Real.arctan 100 1 1 1 1).extractFeatures
          cexOracle imgA).calculateRealVel Real.tan cexOracle imgB 2).2) ∧
    ((((OpticalFlowTracking.construct Real.arctan 100 1 1 1 1).extractFeatures
          cexOracle imgA).calculateRealVel Real.tan cexOracle imgB 2).2)._features = [] ∧
    ((((OpticalFlowTracking.construct Real.arctan 100 1 1 1 1).extractFeatures
          cexOracle imgA).calculateRealVel Real.tan cexOracle imgB 2).2)._last_im = some imgB :=
  ⟨Reachable.compute _ _ _ (Reachable.extract _ _ (Reachable.construct _ _ _ _ _)),
    rfl, rfl⟩

/-- C5 as amended: in every reachable state, a non-empty feature set implies
a non-empty stored reference frame (the converse fails, see the
counterexample). -/
theorem claim5_nonempty_features_have_frame (o : CVOracle)
    (st : OpticalFlowTracking ℝ)
    (hr : Reachable Real.tan Real.arctan o st) (hne : st._features ≠ []) :
    st._last_im.isSome = true :=
  (reachable_basic hr).2 hne

/-- Witness for the amended C5 at a concrete seeded state. -/
theorem claim5_witness :
    Reachable Real.tan Real.arctan cexOracle
      ((OpticalFlowTracking.construct Real.arctan 100 1 1 1 1).extractFeatures
        cexOracle imgA) ∧
    ((OpticalFlowTracking.construct Real.arctan 100 1 1 1 1).extractFeatures
        cexOracle imgA)._features ≠ [] ∧
    ((OpticalFlowTracking.construct Real.arctan 100 1 1 1 1).extractFeatures
        cexOracle imgA)._last_im.isSome = true := by
  have hr : Reachable Real.tan Real.arctan cexOracle
      ((OpticalFlowTracking.construct Real.arctan 100 1 1 1 1).extractFeatures
        cexOracle imgA) :=
    Reachable.extract _ _ (Reachable.construct _ _ _ _ _)
  have hne : ((OpticalFlowTracking.construct Real.arctan 100 1 1 1 1).extractFeatures
      cexOracle imgA)._features ≠ [] := by decide
  exact ⟨hr, hne, claim5_nonempty_features_have_frame cexOracle _ hr hne⟩

/-- C4 fails on the code: in the re-seed step of a TRACKING-state
`calculateRealVel` call whose detection comes back empty, the previous
reference frame is not left untouched - it is overwritten with the new
image. -/
theorem claim4_counterexample :
    ((OpticalFlowTracking.construct Real.arctan 100 1 1 1 1).extractFeatures
        cexOracle imgA)._last_im = some imgA ∧
    goodFeaturesCap cexOracle.gftRaw imgB = [] ∧
    ((((OpticalFlowTracking.construct Real.arctan 100 1 1 1 1).extractFeatures
        cexOracle imgA).calculateRealVel Real.tan cexOracle imgB 2).2)._last_im =
      some imgB ∧
    imgB ≠ imgA :=
  ⟨rfl, rfl, rfl, by decide⟩

/-- C4 as amended: `extractFeatures` (first-call seeding and the public
re-seed entry point) records the image and its dimensions on a non-empty
detection and leaves frame and dimensions untouched on an empty detection;
the inline re-seed inside a TRACKING-state `calculateRealVel` call instead
stores the new image as the reference unconditionally and never updates the
stored dimensions. -/
theorem claim4_amended :
    (∀ (o : CVOracle) (st : OpticalFlowTracking ℝ) (img : Image),
      goodFeaturesCap o.gftRaw img ≠ [] →
        (st.extractFeatures o img)._last_im = some img ∧
        (st.extractFeatures o img)._img_width = img.cols ∧
        (st.extractFeatures o img)._img_height = img.rows) ∧
    (∀ (o : CVOracle) (st : OpticalFlowTracking ℝ) (img : Image),
      goodFeaturesCap o.gftRaw img = [] →
        (st.extractFeatures o img)._last_im = st._last_im ∧
        (st.extractFeatures o img)._img_width = st._img_width ∧
        (st.extractFeatures o img)._img_height = st._img_height) ∧
    (∀ (o : CVOracle) (st : OpticalFlowTracking ℝ) (img prev : Image) (height : ℝ),
      st._last_im = some prev →
        ((st.calculateRealVel Real.tan o img height).2)._last_im = some img ∧
        ((st.calculateRealVel Real.tan o img height).2)._img_width = st._img_width ∧
        ((st.calculateRealVel Real.tan o img height).2)._img_height = st._img_height) := by
  refine ⟨?_, ?_, ?_⟩
  · intro o st img h
    rw [OpticalFlowTracking.extractFeatures, extractFeaturesCore_of_nonempty _ _ _ h]
    exact ⟨rfl, rfl, rfl⟩
  · intro o st img h
    rw [OpticalFlowTracking.extractFeatures, extractFeaturesCore_of_empty _ _ _ h]
    exact ⟨rfl, rfl, rfl⟩
  · intro o st img prev height hl
    rw [calculateRealVel_tracking _ _ _ _ prev _ hl]
    exact ⟨rfl, rfl, rfl⟩

/-- Witness for the amended C4: all three cases at concrete inputs. -/
theorem claim4_witness :
    (goodFeaturesCap cexOracle.gftRaw imgA ≠ [] ∧
      ((⟨100, 1, 1, 1, 1, 1, 1, 7, 9, 0, some imgA, [⟨1, 1⟩]⟩ :
          OpticalFlowTracking ℝ).extractFeatures cexOracle imgA)._last_im = some imgA ∧
      ((⟨100, 1, 1, 1, 1, 1, 1, 7, 9, 0, some imgA, [⟨1, 1⟩]⟩ :
          OpticalFlowTracking ℝ).extractFeatures cexOracle imgA)._img_width = imgA.cols ∧
      ((⟨100, 1, 1, 1, 1, 1, 1, 7, 9, 0, some imgA, [⟨1, 1⟩]⟩ :
          OpticalFlowTracking ℝ).extractFeatures cexOracle imgA)._img_height = imgA.rows) ∧
    (goodFeaturesCap cexOracle.gftRaw imgB = [] ∧
      ((⟨100, 1, 1, 1, 1, 1, 1, 7, 9, 0, some imgA, [⟨1, 1⟩]⟩ :
          OpticalFlowTracking ℝ).extractFeatures cexOracle imgB)._last_im = some imgA ∧
      ((⟨100, 1, 1, 1, 1, 1, 1, 7, 9, 0, some imgA, [⟨1, 1⟩]⟩ :
          OpticalFlowTracking ℝ).extractFeatures cexOracle imgB)._img_width = 7 ∧
      ((⟨100, 1, 1, 1, 1, 1, 1, 7, 9, 0, some imgA, [⟨1, 1⟩]⟩ :
          OpticalFlowTracking ℝ).extractFeatures cexOracle imgB)._img_height = 9) ∧
    ((⟨100, 1, 1, 1, 1, 1, 1, 7, 9, 0, some imgA, [⟨1, 1⟩]⟩ :
        OpticalFlowTracking ℝ)._last_im = some imgA ∧
      (((⟨100, 1, 1, 1, 1, 1, 1, 7, 9, 0, some imgA, [⟨1, 1⟩]⟩ :
          OpticalFlowTracking ℝ).calculateRealVel Real.tan cexOracle imgB 2).2)._last_im =
        some imgB ∧
      (((⟨100, 1, 1, 1, 1, 1, 1, 7, 9, 0, some imgA, [⟨1, 1⟩]⟩ :
          OpticalFlowTracking ℝ).calculateRealVel Real.tan cexOracle imgB 2).2)._img_width = 7 ∧
      (((⟨100, 1, 1, 1, 1, 1, 1, 7, 9, 0, some imgA, [⟨1, 1⟩]⟩ :
          OpticalFlowTracking ℝ).calculateRealVel Real.tan cexOracle imgB 2).2)._img_height = 9) := by
  have h1 : goodFeaturesCap cexOracle.gftRaw imgA ≠ [] := by decide
  have h2 : goodFeaturesCap cexOracle.gftRaw imgB = [] := rfl
  exact ⟨⟨h1, claim4_amended.1 cexOracle
            (⟨100, 1, 1, 1, 1, 1, 1, 7, 9, 0, some imgA, [⟨1, 1⟩]⟩ :
              OpticalFlowTracking ℝ) imgA h1⟩,
         ⟨h2, claim4_amended.2.1 cexOracle
            (⟨100, 1, 1, 1, 1, 1, 1, 7, 9, 0, some imgA, [⟨1, 1⟩]⟩ :
              OpticalFlowTracking ℝ) imgB h2⟩,
         ⟨rfl, claim4_amended.2.2 cexOracle
            (⟨100, 1, 1, 1, 1, 1, 1, 7, 9, 0, some imgA, [⟨1, 1⟩]⟩ :
              OpticalFlowTracking ℝ) imgB imgA 2 rfl⟩⟩

/-- C6 fails on the code: when one of two features is lost in tracking, the
returned new-location sequence keeps an entry for the lost feature (it has
one entry per input feature), while the velocity and old-location
sequences only have entries for the surviving feature, so the four
sequences are not parallel. -/
theorem claim6_counterexample :
    Reachable Real.tan Real.arctan cex6Oracle
      ((OpticalFlowTracking.construct Real.arctan 100 1 1 1 1).extractFeatures
        cex6Oracle imgA) ∧
    (((OpticalFlowTracking.construct Real.arctan 100 1 1 1 1).extractFeatures
        cex6Oracle imgA).calculateRealVel Real.tan cex6Oracle imgB 2).1.new_features.length = 2 ∧
    (((OpticalFlowTracking.construct Real.arctan 100 1 1 1 1).extractFeatures
        cex6Oracle imgA).calculateRealVel Real.tan cex6Oracle imgB 2).1.old_features.length = 1 ∧
    (((OpticalFlowTracking.construct Real.arctan 100 1 1 1 1).extractFeatures
        cex6Oracle imgA).calculateRealVel Real.tan cex6Oracle imgB 2).1.v_est_x.length = 1 ∧
    (((OpticalFlowTracking.construct Real.arctan 100 1 1 1 1).extractFeatures
        cex6Oracle imgA).calculateRealVel Real.tan cex6Oracle imgB 2).1.new_features.length ≠
      (((OpticalFlowTracking.construct Real.arctan 100 1 1 1 1).extractFeatures
        cex6Oracle imgA).calculateRealVel Real.tan cex6Oracle imgB 2).1.old_features.length :=
  ⟨Reachable.extract _ _ (Reachable.construct _ _ _ _ _), rfl, rfl, rfl, by decide⟩

/-- C6 as amended: the velocity-x, velocity-y and old-location sequences
are parallel with one entry per surviving feature; the new-location
sequence has one entry per feature tracked from the previous cycle
(surviving or not); the velocity/old-location entry counts never exceed
the previous cycle's feature count, which never exceeds the extraction cap
of 1000. -/
theorem claim6_amended (o : CVOracle) (st : OpticalFlowTracking ℝ)
    (img prev : Image) (height : ℝ)
    (hr : Reachable Real.tan Real.arctan o st)
    (hl : st._last_im = some prev) :
    (st.calculateRealVel Real.tan o img height).1.v_est_x.length =
      (st.calculateRealVel Real.tan o img height).1.v_est_y.length ∧
    (st.calculateRealVel Real.tan o img height).1.v_est_x.length =
      (st.calculateRealVel Real.tan o img height).1.old_features.length ∧
    (st.calculateRealVel Real.tan o img height).1.old_features.length ≤
      st._features.length ∧
    (st.calculateRealVel Real.tan o img height).1.new_features.length =
      st._features.length ∧
    st._features.length ≤ 1000 := by
  rcases reachable_basic hr with ⟨hcap, _⟩
  rw [calculateRealVel_tracking _ _ _ _ prev _ hl]
  refine ⟨?_, ?_, ?_, ?_, hcap⟩
  · simp [List.length_map]
  · simp [List.length_map, pixelVels_length]
  · simp only [List.length_map]
    exact survivorPairs_length_le _ _
  · simp [List.length_map, lkAll_length]

/-- Witness for the amended C6 at a concrete TRACKING state. -/
theorem claim6_witness :
    Reachable Real.tan Real.arctan cex6Oracle
      ((OpticalFlowTracking.construct Real.arctan 100 1 1 1 1).extractFeatures
        cex6Oracle imgA) ∧
    ((OpticalFlowTracking.construct Real.arctan 100 1 1 1 1).extractFeatures
        cex6Oracle imgA)._last_im = some imgA ∧
    ((((OpticalFlowTracking.construct Real.arctan 100 1 1 1 1).extractFeatures
        cex6Oracle imgA).calculateRealVel Real.tan cex6Oracle imgB 2).1.v_est_x.length =
      (((OpticalFlowTracking.construct Real.arctan 100 1 1 1 1).extractFeatures
        cex6Oracle imgA).calculateRealVel Real.tan cex6Oracle imgB 2).1.v_est_y.length ∧
     (((OpticalFlowTracking.construct Real.arctan 100 1 1 1 1).extractFeatures
        cex6Oracle imgA).calculateRealVel Real.tan cex6Oracle imgB 2).1.v_est_x.length =
      (((OpticalFlowTracking.construct Real.arctan 100 1 1 1 1).extractFeatures
        cex6Oracle imgA).calculateRealVel Real.tan cex6Oracle imgB 2).1.old_features.length ∧
     (((OpticalFlowTracking.construct Real.arctan 100 1 1 1 1).extractFeatures
        cex6Oracle imgA).calculateRealVel Real.tan cex6Oracle imgB 2).1.old_features.length ≤
      ((OpticalFlowTracking.construct Real.arctan 100 1 1 1 1).extractFeatures
        cex6Oracle imgA)._features.length ∧
     (((OpticalFlowTracking.construct Real.arctan 100 1 1 1 1).extractFeatures
        cex6Oracle imgA).calculateRealVel Real.tan cex6Oracle imgB 2).1.new_features.length =
      ((OpticalFlowTracking.construct Real.arctan 100 1 1 1 1).extractFeatures
        cex6Oracle imgA)._features.length ∧
     ((OpticalFlowTracking.construct Real.arctan 100 1 1 1 1).extractFeatures
        cex6Oracle imgA)._features.length ≤ 1000) := by
  have hr : Reachable Real.tan Real.arctan cex6Oracle
      ((OpticalFlowTracking.construct Real.arctan 100 1 1 1 1).extractFeatures
        cex6Oracle imgA) :=
    Reachable.extract _ _ (Reachable.construct _ _ _ _ _)
  exact ⟨hr, rfl, claim6_amended cex6Oracle _ imgB imgA 2 hr rfl⟩

/-- C7: when the underlying tracking computation raises a library error
during a velocity computation, the error is caught at the
velocity-computation boundary of the step function: it is surfaced as a
non-fatal warning, the step returns all-zero output columns with zero
valid samples and no fatal error status, and the tracker's feature set and
reference frame are unchanged, so it remains usable on the next call. -/
theorem claim7_error_boundary (o : CVOracleE) (st : OpticalFlowTracking ℝ)
    (img prev : Image) (dt : ℝ) (e : String)
    (hl : st._last_im = some prev)
    (he : o.lkAllE prev img st._features = .error e) :
    (mdlOutputsModel Real.tan o st img dt).1.out_cols =
      List.replicate 1000 ((0 : ℝ), (0 : ℝ)) ∧
    (mdlOutputsModel Real.tan o st img dt).1.num_features = 0 ∧
    (mdlOutputsModel Real.tan o st img dt).1.warning = some e ∧
    (mdlOutputsModel Real.tan o st img dt).1.error_status = none ∧
    (mdlOutputsModel Real.tan o st img dt).2._features = st._features ∧
    (mdlOutputsModel Real.tan o st img dt).2._last_im = st._last_im := by
  have hE : (st._set_delta_t_ dt).calculateRealVelE Real.tan o img 1 =
      Except.error (e, { st with _delta_t := dt,
                                 _debug_count := st._debug_count + 1 }) := by
    simp only [OpticalFlowTracking.calculateRealVelE,
      OpticalFlowTracking._set_delta_t_, hl, he]
  refine ⟨?_, ?_, ?_, ?_, ?_, ?_⟩ <;> simp only [mdlOutputsModel, hE]

/-- Witness for C7 with an always-throwing tracking oracle. -/
theorem claim7_witness :
    ((⟨100, 1, 1, 1, 1, 1, 1, 640, 480, 0, some imgA, []⟩ :
        OpticalFlowTracking ℝ)._last_im = some imgA) ∧
    cexOracleE.lkAllE imgA imgB [] = Except.error "OpenCV assertion failed" ∧
    ((mdlOutputsModel Real.tan cexOracleE
        (⟨100, 1, 1, 1, 1, 1, 1, 640, 480, 0, some imgA, []⟩ :
          OpticalFlowTracking ℝ) imgB 1).1.out_cols =
      List.replicate 1000 ((0 : ℝ), (0 : ℝ)) ∧
     (mdlOutputsModel Real.tan cexOracleE
        (⟨100, 1, 1, 1, 1, 1, 1, 640, 480, 0, some imgA, []⟩ :
          OpticalFlowTracking ℝ) imgB 1).1.num_features = 0 ∧
     (mdlOutputsModel Real.tan cexOracleE
        (⟨100, 1, 1, 1, 1, 1, 1, 640, 480, 0, some imgA, []⟩ :
          OpticalFlowTracking ℝ) imgB 1).1.warning = some "OpenCV assertion failed" ∧
     (mdlOutputsModel Real.tan cexOracleE
        (⟨100, 1, 1, 1, 1, 1, 1, 640, 480, 0, some imgA, []⟩ :
          OpticalFlowTracking ℝ) imgB 1).1.error_status = none ∧
     (mdlOutputsModel Real.tan cexOracleE
        (⟨100, 1, 1, 1, 1, 1, 1, 640, 480, 0, some imgA, []⟩ :
          OpticalFlowTracking ℝ) imgB 1).2._features = ([] : List Point2f) ∧
     (mdlOutputsModel Real.tan cexOracleE
        (⟨100, 1, 1, 1, 1, 1, 1, 640, 480, 0, some imgA, []⟩ :
          OpticalFlowTracking ℝ) imgB 1).2._last_im = some imgA) :=
  ⟨rfl, rfl, claim7_error_boundary cexOracleE
    (⟨100, 1, 1, 1, 1, 1, 1, 640, 480, 0, some imgA, []⟩ :
      OpticalFlowTracking ℝ) imgB imgA 1 "OpenCV assertion failed" rfl rfl⟩

/-- C10: in every reachable state whose stored reference frame is non-empty
(TRACKING state), the stored frame dimensions are strictly positive, so the
divisions by frame height and frame width in the optical-to-real conversion
never divide by zero.  The oracle hypothesis is the library guarantee that
detected corners lie inside the image, so a non-empty detection implies a
non-degenerate image. -/
theorem claim10_dims_positive (o : CVOracle) (st : OpticalFlowTracking ℝ)
    (hgft : ∀ img : Image, o.gftRaw img ≠ [] → 0 < img.rows ∧ 0 < img.cols)
    (hr : Reachable Real.tan Real.arctan o st)
    (hsome : st._last_im.isSome = true) :
    0 < st._img_width ∧ 0 < st._img_height ∧
      ((st._img_width : ℝ) ≠ 0 ∧ (st._img_height : ℝ) ≠ 0) := by
  rcases reachable_dims_pos hgft hr hsome with ⟨hw, hh⟩
  exact ⟨hw, hh, Nat.cast_ne_zero.mpr hw.ne', Nat.cast_ne_zero.mpr hh.ne'⟩

/-- Witness for C10 at a concrete seeded state with a 480x640 frame. -/
theorem claim10_witness :
    (∀ img : Image, sampleOracle.gftRaw img ≠ [] → 0 < img.rows ∧ 0 < img.cols) ∧
    ((OpticalFlowTracking.construct Real.arctan 100 1 1 1 1).extractFeatures
        sampleOracle imgA)._last_im.isSome = true ∧
    (0 < ((OpticalFlowTracking.construct Real.arctan 100 1 1 1 1).extractFeatures
        sampleOracle imgA)._img_width ∧
     0 < ((OpticalFlowTracking.construct Real.arctan 100 1 1 1 1).extractFeatures
        sampleOracle imgA)._img_height ∧
     ((((OpticalFlowTracking.construct Real.arctan 100 1 1 1 1).extractFeatures
        sampleOracle imgA)._img_width : ℝ) ≠ 0 ∧
      (((OpticalFlowTracking.construct Real.arctan 100 1 1 1 1).extractFeatures
        sampleOracle imgA)._img_height : ℝ) ≠ 0)) := by
  have hg : ∀ img : Image, sampleOracle.gftRaw img ≠ [] →
      0 < img.rows ∧ 0 < img.cols := by
    intro img h
    by_cases hc : 0 < img.rows ∧ 0 < img.cols
    · exact hc
    · simp [sampleOracle, hc] at h
  exact ⟨hg, rfl, claim10_dims_positive sampleOracle _ hg
    (Reachable.extract _ _ (Reachable.construct _ _ _ _ _)) rfl⟩

/-- C8 (code evaluated at the failing input): constructing a tracker with a
non-positive focal length is not rejected; the constructor performs no
validation and returns an ordinary unseeded tracker instance. -/
theorem claim8_construction_not_rejected :
    (OpticalFlowTracking.construct Real.arctan 100 1 0 0.0064 0.0048)._focal_length = 0 ∧
    (OpticalFlowTracking.construct Real.arctan 100 1 0 0.0064 0.0048)._last_im = none ∧
    (OpticalFlowTracking.construct Real.arctan 100 1 0 0.0064 0.0048)._features = [] ∧
    (OpticalFlowTracking.construct Real.arctan 100 1 0 0.0064 0.0048)._has_features = false :=
  ⟨rfl, rfl, rfl, rfl⟩

/-- C9: for fixed pixel motion and frame interval, the real-world velocity
returned by `calculateRealVel` scales linearly in the height argument:
doubling the height doubles every returned component exactly. -/
theorem claim9_height_scaling (o : CVOracle) (st : OpticalFlowTracking ℝ)
    (img : Image) (height : ℝ) :
    (st.calculateRealVel Real.tan o img (2 * height)).1.v_est_x =
      ((st.calculateRealVel Real.tan o img height).1.v_est_x).map (fun v => 2 * v) ∧
    (st.calculateRealVel Real.tan o img (2 * height)).1.v_est_y =
      ((st.calculateRealVel Real.tan o img height).1.v_est_y).map (fun v => 2 * v) := by
  cases hli : st._last_im with
  | none =>
      rw [calculateRealVel_unseeded _ _ _ _ _ hli, calculateRealVel_unseeded _ _ _ _ _ hli]
      exact ⟨rfl, rfl⟩
  | some prev =>
      rw [calculateRealVel_tracking _ _ _ _ prev _ hli,
          calculateRealVel_tracking _ _ _ _ prev _ hli]
      constructor <;>
      · simp only [List.map_map]
        congr 1
        funext v
        simp only [Function.comp_apply, realVelComponent]
        ring
